import Mathlib

/-!
Verification of the Azion MCP tool layer (deco-cx/azion-mcp).

Shallow embedding of the TypeScript tool implementations:
certificate upload (src/server/tools/azion.ts, both the Buffer-based
createDigitalCertificateTool and the atob-based uploadDigitalCertificateTool),
WAF rule creation (src/server/tools/firewall, two schema variants),
domain creation and domain patching (src/server/tools/domains).

JavaScript values reachable in these programs are modelled by `JsValue`;
tool execution is modelled as a pure function of the validated input, the
authorization token and the outcome of the single `fetch` call, returning
the list of HTTP requests issued together with the tool output.
-/

namespace AzionMcp

/-- Model of a JavaScript/JSON value as it occurs in these tools.
`undefined` is the JavaScript value `undefined`, distinct from JSON `null`;
property access on a missing key yields `undefined`. Numbers are integers,
which covers every numeric value appearing in the repository
(ids, status codes, rule order). -/
inductive JsValue where
  | undefined : JsValue
  | null : JsValue
  | bool : Bool → JsValue
  | num : Int → JsValue
  | str : String → JsValue
  | arr : List JsValue → JsValue
  | obj : List (String × JsValue) → JsValue
deriving Repr

/-- True exactly on the JSON value `null`. -/
def JsValue.isNull : JsValue → Bool
  | .null => true
  | _ => false

/-- Property read on a non-null, non-undefined receiver: on an object,
the bound value or `undefined` when the key is missing; on any other
primitive, `undefined` (JavaScript boxes primitives, which have none of
the property names used here). -/
def jsGet (v : JsValue) (k : String) : JsValue :=
  match v with
  | .obj fs => ((fs.find? (fun p => p.1 == k)).map Prod.snd).getD .undefined
  | _ => .undefined

/-- Plain property access `v.k`: throws a TypeError when the receiver is
`null` or `undefined`, as in JavaScript; otherwise reads the property. -/
def jsProp (v : JsValue) (k : String) : Except String JsValue :=
  match v with
  | .undefined => .error ("Cannot read properties of undefined (reading " ++ k ++ ")")
  | .null => .error ("Cannot read properties of null (reading " ++ k ++ ")")
  | _ => .ok (jsGet v k)

/-- Optional-chaining access `v?.k`: `undefined` when the receiver is
`null` or `undefined`, otherwise an ordinary property read. -/
def jsOptChain (v : JsValue) (k : String) : JsValue :=
  match v with
  | .undefined => .undefined
  | .null => .undefined
  | _ => jsGet v k

/-- One outbound HTTP request as assembled by a tool before `fetch`. -/
structure HttpRequest where
  method : String
  url : String
  headers : List (String × String)
  body : JsValue
deriving Repr

/-- Outcome of the single `fetch` call, supplied by the environment.
`networkFailure` is a rejected fetch promise (transport error) carrying
the error message. `response` carries the HTTP status, the raw body text
(what `response.text()` returns) and the result of `response.json()`:
`Except.error` when the body is not valid JSON, in which case the
`json()` call throws. -/
inductive HttpOutcome where
  | networkFailure : String → HttpOutcome
  | response : Nat → String → Except String JsValue → HttpOutcome

/-- The `response.ok` flag of the Fetch API: status in the range 200-299. -/
def responseOk (status : Nat) : Bool :=
  200 ≤ status && status ≤ 299

/-- The common headers every tool attaches, with the caller-supplied
authorization token. -/
def azionHeaders (token : String) : List (String × String) :=
  [("Accept", "application/json; version=3"),
   ("Content-Type", "application/json"),
   ("Authorization", "Token " ++ token)]

/-- The try/catch wrapper present in every tool body: a thrown error is
converted into the uniform failure output by the handler. -/
def tryCatch {α : Type} (body : Except String α) (handler : String → α) : α :=
  match body with
  | .ok a => a
  | .error e => handler e

end AzionMcp

namespace AzionMcp

/-!
Base64, as used by `decodeBase64Certificate` in src/server/tools/azion.ts:
the function calls the platform `atob`, whose behaviour is the WHATWG
forgiving-base64 decode (strip ASCII whitespace; when the length is a
multiple of four, drop up to two trailing padding signs; fail when the
remaining length is congruent 1 mod 4 or any character is outside the
standard alphabet; decode sixtets, discarding leftover bits of a final
partial group). The encoder below is the standard RFC 4648 padded
encoding of a byte sequence (what `btoa` produces), used to state the
round-trip property. -/

/-- Character of the standard base64 alphabet for a sixtet value. -/
def sixtetChar (n : Nat) : Char :=
  if n < 26 then Char.ofNat (65 + n)
  else if n < 52 then Char.ofNat (97 + (n - 26))
  else if n < 62 then Char.ofNat (48 + (n - 52))
  else if n = 62 then '+'
  else '/'

/-- Sixtet value of a character of the standard base64 alphabet, `none`
for any character outside the alphabet. -/
def sixtetOfChar (c : Char) : Option Nat :=
  if 65 ≤ c.toNat ∧ c.toNat ≤ 90 then some (c.toNat - 65)
  else if 97 ≤ c.toNat ∧ c.toNat ≤ 122 then some (c.toNat - 97 + 26)
  else if 48 ≤ c.toNat ∧ c.toNat ≤ 57 then some (c.toNat - 48 + 52)
  else if c = '+' then some 62
  else if c = '/' then some 63
  else none

/-- ASCII whitespace in the sense of the WHATWG infra standard. -/
def isB64Whitespace (c : Char) : Bool :=
  c == ' ' || c == '\t' || c == '\n' || c == '\x0c' || c == '\r'

/-- Standard padded base64 encoding of a byte list, three bytes to four
characters, with one or two trailing padding signs for a final partial
group. -/
def base64EncodeChunks : List Nat → List Char
  | [] => []
  | [b0] => [sixtetChar (b0 / 4), sixtetChar (b0 % 4 * 16), '=', '=']
  | [b0, b1] =>
      [sixtetChar (b0 / 4), sixtetChar (b0 % 4 * 16 + b1 / 16),
       sixtetChar (b1 % 16 * 4), '=']
  | b0 :: b1 :: b2 :: rest =>
      sixtetChar (b0 / 4) :: sixtetChar (b0 % 4 * 16 + b1 / 16) ::
      sixtetChar (b1 % 16 * 4 + b2 / 64) :: sixtetChar (b2 % 64) ::
      base64EncodeChunks rest

/-- Standard padded base64 encoding, as a string. -/
def base64EncodeBytes (bytes : List Nat) : String :=
  String.mk (base64EncodeChunks bytes)

/-- Padding-stripping step of forgiving-base64 decode: when the length is
a multiple of four, remove one or two trailing padding signs. -/
def stripPadding (cs : List Char) : List Char :=
  if cs.length % 4 = 0 then
    if cs.getLast? = some '=' then
      if cs.dropLast.getLast? = some '=' then cs.dropLast.dropLast
      else cs.dropLast
    else cs
  else cs

/-- Sixtet reassembly of forgiving-base64 decode: four sixtets to three
bytes; a final group of two or three sixtets yields one or two bytes with
the leftover bits discarded; a final group of one sixtet is a failure
(input length congruent 1 mod 4 after whitespace and padding removal). -/
def decodeSixtetChunks : List Nat → Option (List Nat)
  | [] => some []
  | [_] => none
  | [a, b] => some [a * 4 + b / 16]
  | [a, b, c] => some [a * 4 + b / 16, b % 16 * 16 + c / 4]
  | a :: b :: c :: d :: rest =>
      (decodeSixtetChunks rest).map
        (fun tail => (a * 4 + b / 16) :: (b % 16 * 16 + c / 4) :: (c % 4 * 64 + d) :: tail)

/-- WHATWG forgiving-base64 decode to a byte list, the behaviour of the
platform `atob` that `decodeBase64Certificate` calls. -/
def forgivingBase64Decode (s : String) : Option (List Nat) := do
  let cs := s.toList.filter (fun c => !isB64Whitespace c)
  let cs := stripPadding cs
  let sixtets ← cs.mapM sixtetOfChar
  decodeSixtetChunks sixtets

/-- The binary string a successful `atob` returns: one character per byte,
code point equal to the byte value. -/
def binaryStringOfBytes (bytes : List Nat) : String :=
  String.mk (bytes.map Char.ofNat)

/-- Message of the InvalidCharacterError thrown by `atob` on malformed
input; the exact wording is runtime specific and nothing below depends
on it beyond it being some fixed string. -/
def atobErrorMessage : String :=
  "The string to be decoded is not correctly encoded."

/-- The platform `atob`: forgiving-base64 decode to a binary string, or a
thrown InvalidCharacterError. -/
def atob (s : String) : Except String String :=
  match forgivingBase64Decode s with
  | some bytes => .ok (binaryStringOfBytes bytes)
  | none => .error atobErrorMessage

/-- Embedding of `decodeBase64Certificate` (src/server/tools/azion.ts):
calls `atob` and rethrows any failure as an Error whose message starts
with the text "Invalid base64 certificate data: ". -/
def decodeBase64Certificate (base64Data : String) : Except String String :=
  match atob base64Data with
  | .ok decoded => .ok decoded
  | .error e => .error ("Invalid base64 certificate data: " ++ e)

/-!
Certificate tools. The validated input of both certificate tools is three
strings; the output schema declares `success` plus optional fields filled
from `result.results?.<field>` on the success path, so those fields hold
whatever JavaScript value the property accesses produced (`undefined` when
absent), and `error` is the string set on the failure paths. -/

/-- Validated input of AZION_CREATE_CERTIFICATE and
AZION_UPLOAD_CERTIFICATE: three required strings. -/
structure CertContext where
  name : String
  certificate : String
  private_key : String

/-- Output object of the certificate tools. -/
structure CertOutput where
  success : Bool
  certificate_id : JsValue := .undefined
  name : JsValue := .undefined
  validity : JsValue := .undefined
  status : JsValue := .undefined
  error : Option String := none
deriving Repr

/-- The catch handler shared by every tool body: a thrown error becomes
the uniform failure output with the message prefixed by "Network error: ". -/
def certCatch (m : String) : CertOutput :=
  { success := false, error := some ("Network error: " ++ m) }

/-- Shared post-fetch processing of the certificate tools, on the
response branch of the fetch outcome (the code from the `response.ok`
check to the success return): a non-2xx status returns the HTTP error
output with the raw body text; a 2xx status parses the body as JSON
(`response.json()`, which throws on invalid JSON), reads `result.results`
(plain access, throws on null or undefined result) and fills the output
fields with optional-chaining reads. -/
def certHandleResponse (status : Nat) (bodyText : String)
    (bodyJson : Except String JsValue) : Except String CertOutput :=
  if responseOk status then do
    let result ← bodyJson
    let results ← jsProp result "results"
    pure { success := true,
           certificate_id := jsOptChain results "id",
           name := jsOptChain results "name",
           validity := jsOptChain results "validity",
           status := jsOptChain results "status" }
  else
    pure { success := false,
           error := some ("HTTP " ++ toString status ++ ": " ++ bodyText) }

/-- Embedding of the execute body of `uploadDigitalCertificateTool`
(AZION_UPLOAD_CERTIFICATE, src/server/tools/azion.ts). Everything,
including the two `decodeBase64Certificate` calls, sits inside the single
try/catch, so a decode failure is caught by the same handler as a fetch
failure. Returns the list of HTTP requests issued (empty when a decode
throws before `fetch` is reached) together with the output. -/
def uploadDigitalCertificateExecute (token : String) (ctx : CertContext)
    (outcome : HttpOutcome) : List HttpRequest × CertOutput :=
  match decodeBase64Certificate ctx.certificate with
  | .error m => ([], certCatch m)
  | .ok decodedCertificate =>
    match decodeBase64Certificate ctx.private_key with
    | .error m => ([], certCatch m)
    | .ok decodedPrivateKey =>
      let req : HttpRequest :=
        { method := "POST",
          url := "https://api.azionapi.net/digital_certificates",
          headers := azionHeaders token,
          body := .obj [("name", .str ctx.name),
                        ("certificate", .str decodedCertificate),
                        ("private_key", .str decodedPrivateKey)] }
      ([req],
        match outcome with
        | .networkFailure m => certCatch m
        | .response status bodyText bodyJson =>
            tryCatch (certHandleResponse status bodyText bodyJson) certCatch)

/-- Embedding of the execute body of `createDigitalCertificateTool`
(AZION_CREATE_CERTIFICATE, src/server/tools/azion.ts). The decoding step
is `Buffer.from(input, base64).toString(utf-8)`, performed before the
try block; Node never throws there (invalid base64 characters are
skipped), so it is modelled as an arbitrary total function `bufDecode`
supplied as a parameter — no theorem below depends on its values. -/
def createDigitalCertificateExecute (bufDecode : String → String)
    (token : String) (ctx : CertContext)
    (outcome : HttpOutcome) : List HttpRequest × CertOutput :=
  let certificate := bufDecode ctx.certificate
  let private_key := bufDecode ctx.private_key
  let req : HttpRequest :=
    { method := "POST",
      url := "https://api.azionapi.net/digital_certificates",
      headers := azionHeaders token,
      body := .obj [("name", .str ctx.name),
                    ("certificate", .str certificate),
                    ("private_key", .str private_key)] }
  ([req],
    match outcome with
    | .networkFailure m => certCatch m
    | .response status bodyText bodyJson =>
        tryCatch (certHandleResponse status bodyText bodyJson) certCatch)

/-!
WAF rule tool (src/server/tools/firewall). Two variants of the file
exist, with different `variable`, `operator` and behavior enumerations;
the zod schemas are embedded as boolean validators over `JsValue`
candidates, with the zod semantics that a missing key and an `undefined`
value both fail a required field, that `null` fails every field, and that
an `optional()` field accepts absence. -/

/-- Scalar type checks used by the zod schema embeddings. -/
def isStr : JsValue → Bool
  | .str _ => true
  | _ => false

/-- True on a string belonging to the given enumeration, the semantics
of a zod enum field. -/
def isEnumOf (allowed : List String) : JsValue → Bool
  | .str s => allowed.contains s
  | _ => false

/-- True on a JavaScript number (zod number field). -/
def isNum : JsValue → Bool
  | .num _ => true
  | _ => false

/-- True on a boolean (zod boolean field). -/
def isBool : JsValue → Bool
  | .bool _ => true
  | _ => false

/-- True on an array of strings (zod array-of-string field). -/
def isStrArr : JsValue → Bool
  | .arr xs => xs.all isStr
  | _ => false

/-- Semantics of an `optional()` (or defaulted) zod field: absence is
accepted, a present value must satisfy the field check. -/
def optionalField (p : JsValue → Bool) : JsValue → Bool
  | .undefined => true
  | v => p v

/-- The `variable` enumeration of the broad legacy CriterionSchema. -/
def legacyVariables : List String :=
  ["request_uri", "request_method", "request_args", "request_headers",
   "host", "user_agent", "referer", "scheme", "server_protocol",
   "request_body", "cookie",
   "remote_addr", "network", "server_port", "ssl_cipher", "ssl_protocol",
   "geoip_country_code", "geoip_country_name", "geoip_region",
   "geoip_region_name", "geoip_city", "geoip_continent_code", "geoip_asn",
   "query_string", "file_extension", "raw_body",
   "args_names", "args_values"]

/-- The `operator` enumeration of the broad legacy CriterionSchema. -/
def legacyOperators : List String :=
  ["is_equal", "is_not_equal", "starts_with", "does_not_start_with",
   "matches", "does_not_match", "contains", "does_not_contain",
   "is_in_list", "is_not_in_list", "exists", "does_not_exist",
   "between", "is_greater_than", "is_less_than"]

/-- The `conditional` enumeration, identical in both schema variants. -/
def conditionalValues : List String :=
  ["if", "and", "or"]

/-- The `variable` enumeration of the narrower current CriterionSchema. -/
def currentVariables : List String :=
  ["header_accept", "header_accept_encoding", "header_accept_language",
   "header_cookie", "header_origin", "header_referer", "header_user_agent",
   "host", "network", "request_args", "request_method", "request_uri",
   "scheme", "client_certificate_validation", "ssl_verification_status"]

/-- The `operator` enumeration of the narrower current CriterionSchema. -/
def currentOperators : List String :=
  ["is_equal", "is_not_equal", "starts_with", "does_not_start_with",
   "matches", "does_not_match", "exists", "does_not_exist",
   "is_in_list", "is_not_in_list"]

/-- The behavior `name` enumeration of the legacy BehaviorSchema. -/
def legacyBehaviorNames : List String :=
  ["deny", "drop", "redirect_to_301", "redirect_to_302", "custom_response",
   "bypass", "rate_limit", "set_waf_ruleset_mode",
   "set_waf_ruleset_sensitivity", "add_request_header",
   "remove_request_header", "add_response_header", "remove_response_header",
   "set_cache_policy", "set_origin", "run_function"]

/-- Embedding of the legacy CriterionSchema: `variable`, `operator` and
`conditional` are required enum fields, `argument` a required string
(the schema marks it required even though its description text says it
is optional for the existence operators). -/
def criterionValidLegacy (v : JsValue) : Bool :=
  match v with
  | .obj _ =>
      isEnumOf legacyVariables (jsGet v "variable") &&
      isEnumOf legacyOperators (jsGet v "operator") &&
      isEnumOf conditionalValues (jsGet v "conditional") &&
      isStr (jsGet v "argument")
  | _ => false

/-- Embedding of the current CriterionSchema: same field structure as the
legacy variant over the narrower enumerations, `argument` again a
required string. -/
def criterionValidCurrent (v : JsValue) : Bool :=
  match v with
  | .obj _ =>
      isEnumOf currentVariables (jsGet v "variable") &&
      isEnumOf currentOperators (jsGet v "operator") &&
      isEnumOf conditionalValues (jsGet v "conditional") &&
      isStr (jsGet v "argument")
  | _ => false

/-- Embedding of the legacy BehaviorSchema: required enum `name`,
optional string `argument`. -/
def behaviorValidLegacy (v : JsValue) : Bool :=
  match v with
  | .obj _ =>
      isEnumOf legacyBehaviorNames (jsGet v "name") &&
      optionalField isStr (jsGet v "argument")
  | _ => false

/-- A criterion group, validated elementwise (zod array of
CriterionSchema): no constraint relates a criterion to its position. -/
def criterionGroupValidLegacy (v : JsValue) : Bool :=
  match v with
  | .arr cs => cs.all criterionValidLegacy
  | _ => false

/-- The `criteria` field: an array of criterion groups. -/
def criteriaValidLegacy (v : JsValue) : Bool :=
  match v with
  | .arr groups => groups.all criterionGroupValidLegacy
  | _ => false

/-- Embedding of the full AZION_CREATE_WAF_RULE input schema, legacy
variant: required number `firewall_id`, required string `name`, boolean
`is_active` defaulting to true (so absence is accepted), behaviors and
criteria validated recursively, required number `order`. -/
def wafRuleInputValidLegacy (v : JsValue) : Bool :=
  match v with
  | .obj _ =>
      isNum (jsGet v "firewall_id") &&
      isStr (jsGet v "name") &&
      optionalField isBool (jsGet v "is_active") &&
      (match jsGet v "behaviors" with
       | .arr bs => bs.all behaviorValidLegacy
       | _ => false) &&
      criteriaValidLegacy (jsGet v "criteria") &&
      isNum (jsGet v "order")
  | _ => false

/-- A validated criterion of the legacy schema, as zod hands it to the
execute body. The source field `variable` is a Lean keyword, hence the
trailing underscore. -/
structure Criterion where
  variable_ : String
  operator : String
  conditional : String
  argument : String

/-- A validated behavior of the legacy schema; `argument` is `none` when
the optional field was absent. -/
structure Behavior where
  name : String
  argument : Option String

/-- List of one key/value entry when the optional value is present,
empty when it is absent: the JSON serialization of an object field
holding a possibly-undefined value, and likewise the conditional
`requestBody` insertions of the domain tools. -/
def optEntry (k : String) (v : Option JsValue) : List (String × JsValue) :=
  match v with
  | some w => [(k, w)]
  | none => []

/-- JSON serialization of a validated behavior: the optional `argument`
key is omitted by JSON.stringify when the value is undefined. -/
def behaviorToJs (b : Behavior) : JsValue :=
  .obj ([("name", JsValue.str b.name)] ++ optEntry "argument" (b.argument.map .str))

/-- JSON serialization of a validated criterion. -/
def criterionToJs (c : Criterion) : JsValue :=
  .obj [("variable", .str c.variable_), ("operator", .str c.operator),
        ("conditional", .str c.conditional), ("argument", .str c.argument)]

/-- Validated input of AZION_CREATE_WAF_RULE (legacy variant), with the
`is_active` default already applied by validation. -/
structure WafRuleContext where
  firewall_id : Int
  name : String
  is_active : Bool
  behaviors : List Behavior
  criteria : List (List Criterion)
  order : Int

/-- Output object of the WAF rule tool. -/
structure WafRuleOutput where
  success : Bool
  rule_id : JsValue := .undefined
  name : JsValue := .undefined
  is_active : JsValue := .undefined
  order : JsValue := .undefined
  error : Option String := none
deriving Repr

/-- Catch handler of the WAF rule tool body. -/
def wafCatch (m : String) : WafRuleOutput :=
  { success := false, error := some ("Network error: " ++ m) }

/-- Post-fetch processing of the WAF rule tool, from the `response.ok`
check onward: HTTP error output with the raw body text on non-2xx,
otherwise JSON parse, plain access to `result.results` and
optional-chaining reads into the output fields. -/
def wafHandleResponse (status : Nat) (bodyText : String)
    (bodyJson : Except String JsValue) : Except String WafRuleOutput :=
  if responseOk status then do
    let result ← bodyJson
    let results ← jsProp result "results"
    pure { success := true,
           rule_id := jsOptChain results "id",
           name := jsOptChain results "name",
           is_active := jsOptChain results "is_active",
           order := jsOptChain results "order" }
  else
    pure { success := false,
           error := some ("HTTP " ++ toString status ++ ": " ++ bodyText) }

/-- The JSON request body of the WAF rule tool: `firewall_id` goes into
the URL, not the body. -/
def wafRuleRequestBody (ctx : WafRuleContext) : JsValue :=
  .obj [("name", .str ctx.name),
        ("is_active", .bool ctx.is_active),
        ("behaviors", .arr (ctx.behaviors.map behaviorToJs)),
        ("criteria", .arr (ctx.criteria.map (fun g => .arr (g.map criterionToJs)))),
        ("order", .num ctx.order)]

/-- Embedding of the execute body of `createWafRuleTool`
(AZION_CREATE_WAF_RULE, legacy variant): one POST to
`/edge_firewall/(firewall_id)/rules_engine`, with the whole body inside
one try/catch whose handler prefixes "Network error: ". -/
def createWafRuleExecute (token : String) (ctx : WafRuleContext)
    (outcome : HttpOutcome) : List HttpRequest × WafRuleOutput :=
  let req : HttpRequest :=
    { method := "POST",
      url := "https://api.azionapi.net/edge_firewall/" ++ toString ctx.firewall_id
             ++ "/rules_engine",
      headers := azionHeaders token,
      body := wafRuleRequestBody ctx }
  ([req],
    match outcome with
    | .networkFailure m => wafCatch m
    | .response status bodyText bodyJson =>
        tryCatch (wafHandleResponse status bodyText bodyJson) wafCatch)

/-!
Domain tools (src/server/tools/domains): AZION_CREATE_DOMAIN and
AZION_PATCH_DOMAIN. Both build `requestBody` by starting from the always
present fields and conditionally inserting each optional field with an
`if (context.field !== undefined)` guard, in the declaration order of the
source; the insertion-order object therefore equals the concatenation of
the per-field entry lists below. -/

/-- Validated input of AZION_CREATE_DOMAIN. `cname_access_only` and
`is_active` carry zod defaults (true), so after validation they are
always present; the two id fields are genuinely optional. -/
structure CreateDomainContext where
  name : String
  cnames : List String
  cname_access_only : Bool
  digital_certificate_id : Option Int
  edge_application_id : Int
  edge_firewall_id : Option Int
  is_active : Bool

/-- The `requestBody` of the create-domain tool: the five always present
fields in source order, then `digital_certificate_id` and
`edge_firewall_id` only when provided. -/
def createDomainRequestBody (ctx : CreateDomainContext) : List (String × JsValue) :=
  [("name", JsValue.str ctx.name),
   ("cnames", JsValue.arr (ctx.cnames.map .str)),
   ("cname_access_only", JsValue.bool ctx.cname_access_only),
   ("edge_application_id", JsValue.num ctx.edge_application_id),
   ("is_active", JsValue.bool ctx.is_active)]
  ++ optEntry "digital_certificate_id" (ctx.digital_certificate_id.map .num)
  ++ optEntry "edge_firewall_id" (ctx.edge_firewall_id.map .num)

/-- Output object of the create-domain tool. -/
structure DomainOutput where
  success : Bool
  domain_id : JsValue := .undefined
  name : JsValue := .undefined
  domain_name : JsValue := .undefined
  cnames : JsValue := .undefined
  is_active : JsValue := .undefined
  error : Option String := none
deriving Repr

/-- Catch handler of the create-domain tool body. -/
def domainCatch (m : String) : DomainOutput :=
  { success := false, error := some ("Network error: " ++ m) }

/-- Post-fetch processing of the create-domain tool. -/
def domainHandleResponse (status : Nat) (bodyText : String)
    (bodyJson : Except String JsValue) : Except String DomainOutput :=
  if responseOk status then do
    let result ← bodyJson
    let results ← jsProp result "results"
    pure { success := true,
           domain_id := jsOptChain results "id",
           name := jsOptChain results "name",
           domain_name := jsOptChain results "domain_name",
           cnames := jsOptChain results "cnames",
           is_active := jsOptChain results "is_active" }
  else
    pure { success := false,
           error := some ("HTTP " ++ toString status ++ ": " ++ bodyText) }

/-- Embedding of the execute body of `createDomainTool`: one POST to
`/domains` with the conditionally assembled body. -/
def createDomainExecute (token : String) (ctx : CreateDomainContext)
    (outcome : HttpOutcome) : List HttpRequest × DomainOutput :=
  let req : HttpRequest :=
    { method := "POST",
      url := "https://api.azionapi.net/domains",
      headers := azionHeaders token,
      body := .obj (createDomainRequestBody ctx) }
  ([req],
    match outcome with
    | .networkFailure m => domainCatch m
    | .response status bodyText bodyJson =>
        tryCatch (domainHandleResponse status bodyText bodyJson) domainCatch)

/-- Validated input of AZION_PATCH_DOMAIN: the required `domain_id` plus
eleven optional fields. Every optional field is declared `optional()`
without `nullable()`, so the validated value is either absent or a value
of the declared type — an explicit JSON `null` does not pass validation
and is not representable here. -/
structure PatchDomainContext where
  domain_id : Int
  name : Option String
  cnames : Option (List String)
  cname_access_only : Option Bool
  digital_certificate_id : Option Int
  edge_application_id : Option Int
  edge_firewall_id : Option Int
  is_active : Option Bool
  is_mtls_enabled : Option Bool
  mtls_verification : Option String
  mtls_trusted_ca_certificate_id : Option Int
  crl_list : Option (List String)

/-- The `requestBody` of the patch-domain tool: starts empty and inserts
each provided field in source order; `domain_id` goes into the URL, not
the body. -/
def patchDomainRequestBody (ctx : PatchDomainContext) : List (String × JsValue) :=
  optEntry "name" (ctx.name.map .str)
  ++ optEntry "cnames" (ctx.cnames.map (fun l => .arr (l.map .str)))
  ++ optEntry "cname_access_only" (ctx.cname_access_only.map .bool)
  ++ optEntry "digital_certificate_id" (ctx.digital_certificate_id.map .num)
  ++ optEntry "edge_application_id" (ctx.edge_application_id.map .num)
  ++ optEntry "edge_firewall_id" (ctx.edge_firewall_id.map .num)
  ++ optEntry "is_active" (ctx.is_active.map .bool)
  ++ optEntry "is_mtls_enabled" (ctx.is_mtls_enabled.map .bool)
  ++ optEntry "mtls_verification" (ctx.mtls_verification.map .str)
  ++ optEntry "mtls_trusted_ca_certificate_id" (ctx.mtls_trusted_ca_certificate_id.map .num)
  ++ optEntry "crl_list" (ctx.crl_list.map (fun l => .arr (l.map .str)))

/-- Output object of the patch-domain tool. -/
structure PatchDomainOutput where
  success : Bool
  domain_id : JsValue := .undefined
  name : JsValue := .undefined
  domain_name : JsValue := .undefined
  cnames : JsValue := .undefined
  cname_access_only : JsValue := .undefined
  digital_certificate_id : JsValue := .undefined
  edge_application_id : JsValue := .undefined
  edge_firewall_id : JsValue := .undefined
  is_active : JsValue := .undefined
  environment : JsValue := .undefined
  is_mtls_enabled : JsValue := .undefined
  mtls_verification : JsValue := .undefined
  mtls_trusted_ca_certificate_id : JsValue := .undefined
  crl_list : JsValue := .undefined
  error : Option String := none
deriving Repr

/-- Catch handler of the patch-domain tool body. -/
def patchDomainCatch (m : String) : PatchDomainOutput :=
  { success := false, error := some ("Network error: " ++ m) }

/-- Post-fetch processing of the patch-domain tool. -/
def patchDomainHandleResponse (status : Nat) (bodyText : String)
    (bodyJson : Except String JsValue) : Except String PatchDomainOutput :=
  if responseOk status then do
    let result ← bodyJson
    let results ← jsProp result "results"
    pure { success := true,
           domain_id := jsOptChain results "id",
           name := jsOptChain results "name",
           domain_name := jsOptChain results "domain_name",
           cnames := jsOptChain results "cnames",
           cname_access_only := jsOptChain results "cname_access_only",
           digital_certificate_id := jsOptChain results "digital_certificate_id",
           edge_application_id := jsOptChain results "edge_application_id",
           edge_firewall_id := jsOptChain results "edge_firewall_id",
           is_active := jsOptChain results "is_active",
           environment := jsOptChain results "environment",
           is_mtls_enabled := jsOptChain results "is_mtls_enabled",
           mtls_verification := jsOptChain results "mtls_verification",
           mtls_trusted_ca_certificate_id := jsOptChain results "mtls_trusted_ca_certificate_id",
           crl_list := jsOptChain results "crl_list" }
  else
    pure { success := false,
           error := some ("HTTP " ++ toString status ++ ": " ++ bodyText) }

/-- Embedding of the execute body of `patchDomainTool`: exactly one PATCH
to `/domains/(domain_id)` with the conditionally assembled body; the
request is issued unconditionally, whether or not any optional field was
provided. -/
def patchDomainExecute (token : String) (ctx : PatchDomainContext)
    (outcome : HttpOutcome) : List HttpRequest × PatchDomainOutput :=
  let req : HttpRequest :=
    { method := "PATCH",
      url := "https://api.azionapi.net/domains/" ++ toString ctx.domain_id,
      headers := azionHeaders token,
      body := .obj (patchDomainRequestBody ctx) }
  ([req],
    match outcome with
    | .networkFailure m => patchDomainCatch m
    | .response status bodyText bodyJson =>
        tryCatch (patchDomainHandleResponse status bodyText bodyJson) patchDomainCatch)

/-- Embedding of the AZION_PATCH_DOMAIN input schema as a validator on a
candidate JavaScript object: `domain_id` a required number, every other
field `optional()` of its declared type. None of the optional fields is
`nullable()`, so an explicit `null` value fails validation. -/
def patchDomainInputValid (v : JsValue) : Bool :=
  match v with
  | .obj _ =>
      isNum (jsGet v "domain_id") &&
      optionalField isStr (jsGet v "name") &&
      optionalField isStrArr (jsGet v "cnames") &&
      optionalField isBool (jsGet v "cname_access_only") &&
      optionalField isNum (jsGet v "digital_certificate_id") &&
      optionalField isNum (jsGet v "edge_application_id") &&
      optionalField isNum (jsGet v "edge_firewall_id") &&
      optionalField isBool (jsGet v "is_active") &&
      optionalField isBool (jsGet v "is_mtls_enabled") &&
      optionalField (isEnumOf ["enforce", "permissive"]) (jsGet v "mtls_verification") &&
      optionalField isNum (jsGet v "mtls_trusted_ca_certificate_id") &&
      optionalField isStrArr (jsGet v "crl_list")
  | _ => false

/-!
Auxiliary specification-side definitions used to state the theorems:
the key list contributed by an optional input field, the sixtet sequence
and padding of the base64 encoder (used to decompose the round-trip
proof), and concrete sample contexts for witnesses. -/

/-- The list of keys an optional input field contributes to the request
body: its own key when provided, nothing when absent. -/
def presentKey {α : Type} (k : String) (o : Option α) : List String :=
  match o with
  | some _ => [k]
  | none => []

/-- The sixtet values of the base64 encoding of a byte list, without the
character mapping and without padding. -/
def sixtetsOfBytes : List Nat → List Nat
  | [] => []
  | [b0] => [b0 / 4, b0 % 4 * 16]
  | [b0, b1] => [b0 / 4, b0 % 4 * 16 + b1 / 16, b1 % 16 * 4]
  | b0 :: b1 :: b2 :: rest =>
      b0 / 4 :: (b0 % 4 * 16 + b1 / 16) :: (b1 % 16 * 4 + b2 / 64) :: b2 % 64 ::
      sixtetsOfBytes rest

/-- The padding characters the base64 encoder appends for a byte list. -/
def padOf : List Nat → List Char
  | [] => []
  | [_] => ['=', '=']
  | [_, _] => ['=']
  | _ :: _ :: _ :: rest => padOf rest

/-- A concrete certificate-tool input used by witnesses. -/
def certCtxExample : CertContext :=
  { name := "cert", certificate := "QQ==", private_key := "QQ==" }

/-- A concrete WAF-rule input used by witnesses. -/
def wafCtxExample : WafRuleContext :=
  { firewall_id := 7, name := "rule", is_active := true,
    behaviors := [{ name := "deny", argument := none }],
    criteria := [[{ variable_ := "request_uri", operator := "is_equal",
                    conditional := "if", argument := "/x" }]],
    order := 1 }

end AzionMcp

namespace AzionMcp

/-!
Helper lemmas. -/

/-- Character-level round trip of the base64 alphabet. -/
theorem sixtetOfChar_sixtetChar : ∀ n : Nat, n < 64 → sixtetOfChar (sixtetChar n) = some n := by
  decide

/-- Alphabet characters are neither whitespace nor the padding sign. -/
theorem sixtetChar_not_ws : ∀ n : Nat, n < 64 →
    isB64Whitespace (sixtetChar n) = false ∧ sixtetChar n ≠ '=' := by
  decide

/-- The encoder output is the sixtet characters followed by the padding. -/
theorem encode_rep : ∀ bytes : List Nat,
    base64EncodeChunks bytes = (sixtetsOfBytes bytes).map sixtetChar ++ padOf bytes := by
  intro bytes
  induction bytes using base64EncodeChunks.induct with
  | case1 => rfl
  | case2 b0 => rfl
  | case3 b0 b1 => rfl
  | case4 b0 b1 b2 rest ih =>
      simp [base64EncodeChunks, sixtetsOfBytes, padOf, ih]

/-- Sixtet reassembly inverts sixtet splitting on byte values. -/
theorem decode_sixtets : ∀ bytes : List Nat, (∀ x ∈ bytes, x < 256) →
    decodeSixtetChunks (sixtetsOfBytes bytes) = some bytes := by
  intro bytes h
  induction bytes using sixtetsOfBytes.induct with
  | case1 => rfl
  | case2 b0 =>
      simp only [sixtetsOfBytes, decodeSixtetChunks, Option.some.injEq, List.cons.injEq,
        and_true]
      omega
  | case3 b0 b1 =>
      have hb1 : b1 < 256 := h b1 (by simp)
      simp only [sixtetsOfBytes, decodeSixtetChunks, Option.some.injEq, List.cons.injEq,
        and_true]
      constructor <;> omega
  | case4 b0 b1 b2 rest ih =>
      have hb1 : b1 < 256 := h b1 (by simp)
      have hb2 : b2 < 256 := h b2 (by simp)
      have hr : ∀ x ∈ rest, x < 256 := fun x hx => h x (by simp [hx])
      simp only [sixtetsOfBytes, decodeSixtetChunks, ih hr, Option.map_some',
        Option.some.injEq, List.cons.injEq, and_true]
      refine ⟨by omega, by omega, by omega⟩

/-- The sixtets of byte values are sixtet values. -/
theorem sixtets_lt_64 : ∀ bytes : List Nat, (∀ x ∈ bytes, x < 256) →
    ∀ s ∈ sixtetsOfBytes bytes, s < 64 := by
  intro bytes h
  induction bytes using sixtetsOfBytes.induct with
  | case1 => simp [sixtetsOfBytes]
  | case2 b0 =>
      have hb0 : b0 < 256 := h b0 (by simp)
      simp only [sixtetsOfBytes, List.mem_cons, List.not_mem_nil, or_false]
      rintro s (rfl | rfl) <;> omega
  | case3 b0 b1 =>
      have hb0 : b0 < 256 := h b0 (by simp)
      have hb1 : b1 < 256 := h b1 (by simp)
      simp only [sixtetsOfBytes, List.mem_cons, List.not_mem_nil, or_false]
      rintro s (rfl | rfl | rfl) <;> omega
  | case4 b0 b1 b2 rest ih =>
      have hb1 : b1 < 256 := h b1 (by simp)
      have hb2 : b2 < 256 := h b2 (by simp)
      have hr : ∀ x ∈ rest, x < 256 := fun x hx => h x (by simp [hx])
      simp only [sixtetsOfBytes, List.mem_cons]
      rintro s (rfl | rfl | rfl | rfl | hs)
      · have hb0 : b0 < 256 := h b0 (by simp)
        omega
      · omega
      · omega
      · omega
      · exact ih hr s hs

/-- Mapping to characters and back over a list of sixtet values. -/
theorem mapM_sixtet_map : ∀ l : List Nat, (∀ s ∈ l, s < 64) →
    (l.map sixtetChar).mapM sixtetOfChar = some l := by
  intro l h
  induction l with
  | nil => rfl
  | cons x xs ih =>
      have hx : x < 64 := h x (by simp)
      have hxs : ∀ s ∈ xs, s < 64 := fun s hs => h s (by simp [hs])
      simp only [List.map_cons, List.mapM_cons, sixtetOfChar_sixtetChar x hx, ih hxs]
      rfl

/-- Every padding character is the padding sign. -/
theorem padOf_mem : ∀ (bytes : List Nat) (c : Char), c ∈ padOf bytes → c = '=' := by
  intro bytes
  induction bytes using padOf.induct with
  | case1 => simp [padOf]
  | case2 b0 =>
      intro c hc
      simp only [padOf, List.mem_cons, List.not_mem_nil, or_false] at hc
      rcases hc with rfl | rfl <;> rfl
  | case3 b0 b1 =>
      intro c hc
      simp only [padOf, List.mem_cons, List.not_mem_nil, or_false] at hc
      rw [hc]
  | case4 b0 b1 b2 rest ih => exact ih

/-- The padding is empty, one sign or two signs. -/
theorem padOf_cases : ∀ bytes : List Nat,
    padOf bytes = [] ∨ padOf bytes = ['='] ∨ padOf bytes = ['=', '='] := by
  intro bytes
  induction bytes using padOf.induct with
  | case1 => left; rfl
  | case2 b0 => right; right; rfl
  | case3 b0 b1 => right; left; rfl
  | case4 b0 b1 b2 rest ih => exact ih

/-- Sixtet characters plus padding always total a multiple of four. -/
theorem len_mod4 : ∀ bytes : List Nat,
    ((sixtetsOfBytes bytes).length + (padOf bytes).length) % 4 = 0 := by
  intro bytes
  induction bytes using padOf.induct with
  | case1 => rfl
  | case2 b0 => simp [sixtetsOfBytes, padOf]
  | case3 b0 b1 => simp [sixtetsOfBytes, padOf]
  | case4 b0 b1 b2 rest ih =>
      simp only [sixtetsOfBytes, padOf, List.length_cons] at ih ⊢
      omega

/-- Padding stripping leaves a padding-free block of four-aligned length
unchanged. -/
theorem stripPadding_no_eq (body : List Char) (hbody : ∀ c ∈ body, c ≠ '=')
    (hlen : body.length % 4 = 0) : stripPadding body = body := by
  unfold stripPadding
  rw [if_pos hlen]
  rcases Classical.em (body = []) with rfl | hne
  · rfl
  · have : body.getLast? ≠ some '=' := by
      intro hl
      exact hbody '=' (List.mem_of_mem_getLast? hl) rfl
    rw [if_neg this]

/-- Padding stripping removes a single trailing padding sign. -/
theorem stripPadding_one (body : List Char) (hbody : ∀ c ∈ body, c ≠ '=')
    (hlen : (body.length + 1) % 4 = 0) : stripPadding (body ++ ['=']) = body := by
  unfold stripPadding
  have h1 : (body ++ ['=']).length % 4 = 0 := by simp [hlen]
  rw [if_pos h1, if_pos (List.getLast?_concat body), List.dropLast_concat]
  rcases Classical.em (body = []) with rfl | hne
  · rfl
  · have : body.getLast? ≠ some '=' := by
      intro hl
      exact hbody '=' (List.mem_of_mem_getLast? hl) rfl
    rw [if_neg this]

/-- Padding stripping removes two trailing padding signs. -/
theorem stripPadding_two (body : List Char) (hlen : (body.length + 2) % 4 = 0) :
    stripPadding (body ++ ['=', '=']) = body := by
  have hsplit : body ++ ['=', '='] = (body ++ ['=']) ++ ['='] := by simp
  unfold stripPadding
  rw [hsplit]
  have h1 : ((body ++ ['=']) ++ ['=']).length % 4 = 0 := by simp; omega
  rw [if_pos h1, if_pos (List.getLast?_concat _), List.dropLast_concat,
    if_pos (List.getLast?_concat body), List.dropLast_concat]

/-- The forgiving-base64 decode of the standard encoding of any byte list
returns exactly that byte list. -/
theorem forgiving_decode_encode (bytes : List Nat) (h : ∀ x ∈ bytes, x < 256) :
    forgivingBase64Decode (base64EncodeBytes bytes) = some bytes := by
  have hrep := encode_rep bytes
  have hlt := sixtets_lt_64 bytes h
  have hnoeq : ∀ c ∈ (sixtetsOfBytes bytes).map sixtetChar, c ≠ '=' := by
    intro c hc
    obtain ⟨s, hs, rfl⟩ := List.mem_map.1 hc
    exact (sixtetChar_not_ws s (hlt s hs)).2
  have hnows : ∀ c ∈ base64EncodeChunks bytes, (!isB64Whitespace c) = true := by
    intro c hc
    rw [hrep] at hc
    rcases List.mem_append.1 hc with hc | hc
    · obtain ⟨s, hs, rfl⟩ := List.mem_map.1 hc
      simp [(sixtetChar_not_ws s (hlt s hs)).1]
    · rw [padOf_mem bytes c hc]; rfl
  have hfilter : (base64EncodeChunks bytes).filter (fun c => !isB64Whitespace c)
      = base64EncodeChunks bytes := List.filter_eq_self.2 hnows
  have hlen := len_mod4 bytes
  have hstrip : stripPadding (base64EncodeChunks bytes)
      = (sixtetsOfBytes bytes).map sixtetChar := by
    rw [hrep]
    rcases padOf_cases bytes with hp | hp | hp <;> rw [hp] <;> rw [hp] at hlen
    · simp only [List.append_nil]
      exact stripPadding_no_eq _ hnoeq (by simpa using hlen)
    · exact stripPadding_one _ hnoeq (by simpa using hlen)
    · exact stripPadding_two _ (by simpa using hlen)
  have htolist : (base64EncodeBytes bytes).toList = base64EncodeChunks bytes := rfl
  unfold forgivingBase64Decode
  rw [htolist]
  simp only [hfilter, hstrip, mapM_sixtet_map _ hlt, Option.bind_eq_bind,
    Option.some_bind]
  exact decode_sixtets bytes h

end AzionMcp

namespace AzionMcp

/-- C5: for every byte sequence, encoding it as standard base64 and
passing the encoded string through the decoding step of the upload
normalizer (`decodeBase64Certificate`, the platform atob) yields exactly
the original bytes: the decode succeeds with the binary string whose
character codes are the bytes, for arbitrary bytes and not only
ASCII/PEM text. -/
theorem uploadCert_base64_roundtrip (bytes : List Nat) (h : ∀ x ∈ bytes, x < 256) :
    decodeBase64Certificate (base64EncodeBytes bytes) = .ok (binaryStringOfBytes bytes)
    ∧ (binaryStringOfBytes bytes).toList.map Char.toNat = bytes := by
  constructor
  · unfold decodeBase64Certificate atob
    rw [forgiving_decode_encode bytes h]
  · have hpt : ∀ x ∈ bytes, (Char.ofNat x).toNat = x := by
      intro x hx
      have hv : x.isValidChar := Or.inl (by have := h x hx; omega)
      simp [Char.ofNat, hv, Char.toNat, Char.ofNatAux, UInt32.toNat, BitVec.toNat_ofNatLt]
    have htl : (binaryStringOfBytes bytes).toList = bytes.map Char.ofNat := rfl
    rw [htl, List.map_map]
    exact (List.map_congr_left fun x hx => hpt x hx).trans (List.map_id bytes)

/-- C5 witness: the round trip at the concrete byte list 0, 255, 137, 10,
which is not ASCII and not valid UTF-8. -/
theorem uploadCert_base64_roundtrip_witness :
    decodeBase64Certificate (base64EncodeBytes [0, 255, 137, 10])
        = .ok (binaryStringOfBytes [0, 255, 137, 10])
    ∧ (binaryStringOfBytes [0, 255, 137, 10]).toList.map Char.toNat = [0, 255, 137, 10] :=
  uploadCert_base64_roundtrip [0, 255, 137, 10] (by decide)

/-- C1: evaluation of the upload tool at an invalid base64 certificate.
The decode failure is surfaced before any HTTP call (the issued request
list is empty, so the submitter is never invoked), but because the decode
throws inside the same try/catch that handles fetch failures, the
returned error is labelled "Network error: ", not a validation error:
the output is success false with the message "Network error: Invalid
base64 certificate data: ...". -/
theorem uploadCert_invalid_base64_no_http (token : String) (outcome : HttpOutcome) :
    uploadDigitalCertificateExecute token
      { name := "crt", certificate := "%%%%", private_key := "QQ==" } outcome
    = ([], { success := false,
             error := some ("Network error: "
                            ++ ("Invalid base64 certificate data: " ++ atobErrorMessage)) }) := by
  rfl

end AzionMcp

namespace AzionMcp

/-- Shape of the certificate-tool result of response processing. -/
theorem certResponse_shape (s : Nat) (t : String) (j : Except String JsValue) :
    (tryCatch (certHandleResponse s t j) certCatch).success
      = (tryCatch (certHandleResponse s t j) certCatch).error.isNone := by
  unfold certHandleResponse
  split
  · cases j with
    | error m => rfl
    | ok result => cases result <;> rfl
  · rfl

/-- Shape of the WAF-tool result of response processing. -/
theorem wafResponse_shape (s : Nat) (t : String) (j : Except String JsValue) :
    (tryCatch (wafHandleResponse s t j) wafCatch).success
      = (tryCatch (wafHandleResponse s t j) wafCatch).error.isNone := by
  unfold wafHandleResponse
  split
  · cases j with
    | error m => rfl
    | ok result => cases result <;> rfl
  · rfl

/-- Shape of the create-domain result of response processing. -/
theorem domainResponse_shape (s : Nat) (t : String) (j : Except String JsValue) :
    (tryCatch (domainHandleResponse s t j) domainCatch).success
      = (tryCatch (domainHandleResponse s t j) domainCatch).error.isNone := by
  unfold domainHandleResponse
  split
  · cases j with
    | error m => rfl
    | ok result => cases result <;> rfl
  · rfl

/-- Shape of the patch-domain result of response processing. -/
theorem patchResponse_shape (s : Nat) (t : String) (j : Except String JsValue) :
    (tryCatch (patchDomainHandleResponse s t j) patchDomainCatch).success
      = (tryCatch (patchDomainHandleResponse s t j) patchDomainCatch).error.isNone := by
  unfold patchDomainHandleResponse
  split
  · cases j with
    | error m => rfl
    | ok result => cases result <;> rfl
  · rfl

/-- C2: every tool invocation, whatever the outcome (decode failure,
network failure, HTTP error, JSON parse failure, malformed success
body), returns the structured result shape: success true with no error,
or success false with an error description. In the embedding the execute
functions are total by construction — every throwing operation of the
source sits inside the modelled try/catch — so no invocation propagates
an uncaught exception. -/
theorem tool_outputs_uniform (token : String) (bufDecode : String → String)
    (cctx : CertContext) (wctx : WafRuleContext) (dctx : CreateDomainContext)
    (pctx : PatchDomainContext) (outcome : HttpOutcome) :
    ((uploadDigitalCertificateExecute token cctx outcome).2.success
      = (uploadDigitalCertificateExecute token cctx outcome).2.error.isNone)
    ∧ ((createDigitalCertificateExecute bufDecode token cctx outcome).2.success
      = (createDigitalCertificateExecute bufDecode token cctx outcome).2.error.isNone)
    ∧ ((createWafRuleExecute token wctx outcome).2.success
      = (createWafRuleExecute token wctx outcome).2.error.isNone)
    ∧ ((createDomainExecute token dctx outcome).2.success
      = (createDomainExecute token dctx outcome).2.error.isNone)
    ∧ ((patchDomainExecute token pctx outcome).2.success
      = (patchDomainExecute token pctx outcome).2.error.isNone) := by
  refine ⟨?_, ?_, ?_, ?_, ?_⟩
  · unfold uploadDigitalCertificateExecute
    cases decodeBase64Certificate cctx.certificate with
    | error m => rfl
    | ok c =>
        cases decodeBase64Certificate cctx.private_key with
        | error m => rfl
        | ok k =>
            cases outcome with
            | networkFailure m => rfl
            | response s t j => exact certResponse_shape s t j
  · unfold createDigitalCertificateExecute
    cases outcome with
    | networkFailure m => rfl
    | response s t j => exact certResponse_shape s t j
  · unfold createWafRuleExecute
    cases outcome with
    | networkFailure m => rfl
    | response s t j => exact wafResponse_shape s t j
  · unfold createDomainExecute
    cases outcome with
    | networkFailure m => rfl
    | response s t j => exact domainResponse_shape s t j
  · unfold patchDomainExecute
    cases outcome with
    | networkFailure m => rfl
    | response s t j => exact patchResponse_shape s t j

/-- C3: a non-2xx vendor response makes the tool return success false
with the message "HTTP status: raw body text", the body text inserted
verbatim with no JSON re-parsing, shown for the WAF-rule tool and the
create-certificate tool. -/
theorem http_error_verbatim (token : String) (bufDecode : String → String)
    (cctx : CertContext) (wctx : WafRuleContext) (status : Nat) (bodyText : String)
    (bodyJson : Except String JsValue) (h : responseOk status = false) :
    ((createWafRuleExecute token wctx (.response status bodyText bodyJson)).2
      = { success := false, error := some ("HTTP " ++ toString status ++ ": " ++ bodyText) })
    ∧ ((createDigitalCertificateExecute bufDecode token cctx
          (.response status bodyText bodyJson)).2
      = { success := false, error := some ("HTTP " ++ toString status ++ ": " ++ bodyText) }) := by
  constructor
  · unfold createWafRuleExecute
    show tryCatch (wafHandleResponse status bodyText bodyJson) wafCatch = _
    unfold wafHandleResponse
    rw [if_neg (by simp [h])]
    rfl
  · unfold createDigitalCertificateExecute
    show tryCatch (certHandleResponse status bodyText bodyJson) certCatch = _
    unfold certHandleResponse
    rw [if_neg (by simp [h])]
    rfl

/-- C3 witness: status 422 with the raw body from the specification
example, a JSON-looking text inserted verbatim. -/
theorem http_error_verbatim_witness :
    ((createWafRuleExecute "tok" wafCtxExample
        (.response 422 "\x7b\"detail\":\"invalid\"\x7d" (.error "boom"))).2
      = { success := false, error := some "HTTP 422: \x7b\"detail\":\"invalid\"\x7d" })
    ∧ ((createDigitalCertificateExecute (fun s => s) "tok" certCtxExample
        (.response 422 "\x7b\"detail\":\"invalid\"\x7d" (.error "boom"))).2
      = { success := false, error := some "HTTP 422: \x7b\"detail\":\"invalid\"\x7d" }) :=
  http_error_verbatim "tok" (fun s => s) certCtxExample wafCtxExample 422
    "\x7b\"detail\":\"invalid\"\x7d" (.error "boom") (by decide)

/-- C4: a 2xx response whose parsed body is
(results: (id: 42, name: x, is_active: true, order: 1)) makes the
WAF-rule tool return success true with rule_id 42, name x, is_active
true, order 1 and no error. -/
theorem wafRule_success_mapping (token : String) (wctx : WafRuleContext) (status : Nat)
    (bodyText : String) (h : responseOk status = true) :
    (createWafRuleExecute token wctx (.response status bodyText
        (.ok (JsValue.obj [("results", JsValue.obj
          [("id", JsValue.num 42), ("name", JsValue.str "x"),
           ("is_active", JsValue.bool true), ("order", JsValue.num 1)])])))).2
      = { success := true, rule_id := JsValue.num 42, name := JsValue.str "x",
          is_active := JsValue.bool true, order := JsValue.num 1 } := by
  unfold createWafRuleExecute
  show tryCatch (wafHandleResponse status bodyText _) wafCatch = _
  unfold wafHandleResponse
  rw [if_pos h]
  rfl

/-- C4 witness: the mapping at status 200. -/
theorem wafRule_success_mapping_witness :
    (createWafRuleExecute "tok" wafCtxExample (.response 200 ""
        (.ok (JsValue.obj [("results", JsValue.obj
          [("id", JsValue.num 42), ("name", JsValue.str "x"),
           ("is_active", JsValue.bool true), ("order", JsValue.num 1)])])))).2
      = { success := true, rule_id := JsValue.num 42, name := JsValue.str "x",
          is_active := JsValue.bool true, order := JsValue.num 1 } :=
  wafRule_success_mapping "tok" wafCtxExample 200 "" (by decide)

end AzionMcp

namespace AzionMcp

/-- Keys contributed by a conditionally inserted field. -/
theorem optEntry_keys {α : Type} (k : String) (o : Option α) (f : α → JsValue) :
    (optEntry k (o.map f)).map Prod.fst = presentKey k o := by
  cases o <;> rfl

/-- A conditionally inserted field never carries a null value when its
serialization never produces null. -/
theorem optEntry_all_notNull {α : Type} (k : String) (o : Option α) (f : α → JsValue)
    (hf : ∀ a, (f a).isNull = false) :
    (optEntry k (o.map f)).all (fun kv => !kv.2.isNull) = true := by
  cases o with
  | none => rfl
  | some a => simp [optEntry, hf a]

/-- Key list of the create-domain request body. -/
theorem createDomainRequestBody_keys (ctx : CreateDomainContext) :
    (createDomainRequestBody ctx).map Prod.fst
      = ["name", "cnames", "cname_access_only", "edge_application_id", "is_active"]
        ++ presentKey "digital_certificate_id" ctx.digital_certificate_id
        ++ presentKey "edge_firewall_id" ctx.edge_firewall_id := by
  unfold createDomainRequestBody
  simp only [List.map_append, optEntry_keys]
  rfl

/-- Key list of the patch-domain request body. -/
theorem patchDomainRequestBody_keys (ctx : PatchDomainContext) :
    (patchDomainRequestBody ctx).map Prod.fst
      = presentKey "name" ctx.name
        ++ presentKey "cnames" ctx.cnames
        ++ presentKey "cname_access_only" ctx.cname_access_only
        ++ presentKey "digital_certificate_id" ctx.digital_certificate_id
        ++ presentKey "edge_application_id" ctx.edge_application_id
        ++ presentKey "edge_firewall_id" ctx.edge_firewall_id
        ++ presentKey "is_active" ctx.is_active
        ++ presentKey "is_mtls_enabled" ctx.is_mtls_enabled
        ++ presentKey "mtls_verification" ctx.mtls_verification
        ++ presentKey "mtls_trusted_ca_certificate_id" ctx.mtls_trusted_ca_certificate_id
        ++ presentKey "crl_list" ctx.crl_list := by
  unfold patchDomainRequestBody
  simp only [List.map_append, optEntry_keys]

/-- Membership in the key list of a conditionally inserted field. -/
theorem mem_presentKey {α : Type} (k k2 : String) (o : Option α) :
    k ∈ presentKey k2 o ↔ (k = k2 ∧ o.isSome = true) := by
  cases o <;> simp [presentKey]

/-- C6: the normalized request body of the domain tools contains exactly
the always-present declared fields (for domain creation: the three
required fields plus the two defaulted booleans, all present after
validation) plus exactly those optional fields that were provided; an
absent optional field is omitted entirely, and no field is ever sent as
null. -/
theorem normalized_body_exact_fields (cctx : CreateDomainContext)
    (pctx : PatchDomainContext) :
    ((createDomainRequestBody cctx).map Prod.fst
      = ["name", "cnames", "cname_access_only", "edge_application_id", "is_active"]
        ++ presentKey "digital_certificate_id" cctx.digital_certificate_id
        ++ presentKey "edge_firewall_id" cctx.edge_firewall_id)
    ∧ ((patchDomainRequestBody pctx).map Prod.fst
      = presentKey "name" pctx.name
        ++ presentKey "cnames" pctx.cnames
        ++ presentKey "cname_access_only" pctx.cname_access_only
        ++ presentKey "digital_certificate_id" pctx.digital_certificate_id
        ++ presentKey "edge_application_id" pctx.edge_application_id
        ++ presentKey "edge_firewall_id" pctx.edge_firewall_id
        ++ presentKey "is_active" pctx.is_active
        ++ presentKey "is_mtls_enabled" pctx.is_mtls_enabled
        ++ presentKey "mtls_verification" pctx.mtls_verification
        ++ presentKey "mtls_trusted_ca_certificate_id" pctx.mtls_trusted_ca_certificate_id
        ++ presentKey "crl_list" pctx.crl_list)
    ∧ (createDomainRequestBody cctx).all (fun kv => !kv.2.isNull) = true
    ∧ (patchDomainRequestBody pctx).all (fun kv => !kv.2.isNull) = true := by
  refine ⟨createDomainRequestBody_keys cctx, patchDomainRequestBody_keys pctx, ?_, ?_⟩
  · unfold createDomainRequestBody
    simp only [List.all_append, Bool.and_eq_true]
    and_intros <;> first
      | rfl
      | exact optEntry_all_notNull _ _ _ (fun a => rfl)
  · unfold patchDomainRequestBody
    simp only [List.all_append, Bool.and_eq_true]
    and_intros <;> exact optEntry_all_notNull _ _ _ (fun a => rfl)

/-- C7 counterexample: the claimed third state (explicit null, to clear
a field such as the CRL list) is not representable: the patch input
schema rejects a null crl_list, while the same input with the field
absent or with an array value is accepted. -/
theorem patch_null_state_rejected_cex :
    patchDomainInputValid (.obj [("domain_id", JsValue.num 1), ("crl_list", JsValue.null)])
        = false
    ∧ patchDomainInputValid (.obj [("domain_id", JsValue.num 1),
        ("crl_list", JsValue.arr [JsValue.str "u"])]) = true
    ∧ patchDomainInputValid (.obj [("domain_id", JsValue.num 1)]) = true := by
  refine ⟨rfl, rfl, rfl⟩

/-- C7 amended: the patch input distinguishes two states per updatable
field, absent (omitted from the body) and present value (sent); an
explicit null does not validate, for any accompanying fields, so a
clear-to-null state is not representable, and the body contains an
updatable field exactly when the caller supplied it. -/
theorem patch_two_state_fields :
    (∀ others : List (String × JsValue),
        patchDomainInputValid (.obj (("crl_list", JsValue.null) :: others)) = false)
    ∧ (∀ pctx : PatchDomainContext,
        (("crl_list" ∈ (patchDomainRequestBody pctx).map Prod.fst)
            ↔ pctx.crl_list.isSome = true)
        ∧ (("mtls_trusted_ca_certificate_id" ∈ (patchDomainRequestBody pctx).map Prod.fst)
            ↔ pctx.mtls_trusted_ca_certificate_id.isSome = true)
        ∧ (("name" ∈ (patchDomainRequestBody pctx).map Prod.fst)
            ↔ pctx.name.isSome = true)) := by
  constructor
  · intro others
    simp [patchDomainInputValid, jsGet, optionalField, isStrArr]
  · intro pctx
    rw [patchDomainRequestBody_keys]
    simp [List.mem_append, mem_presentKey]

end AzionMcp

namespace AzionMcp

/-- C8 counterexample: a complete WAF-rule input whose single criterion
group starts with conditional "and" passes validation, so a group
starting with "and" is not rejected. -/
theorem waf_group_starting_with_and_accepted :
    wafRuleInputValidLegacy (.obj
      [("firewall_id", JsValue.num 1),
       ("name", JsValue.str "r"),
       ("behaviors", JsValue.arr [JsValue.obj [("name", JsValue.str "deny")]]),
       ("criteria", JsValue.arr [JsValue.arr [JsValue.obj
          [("variable", JsValue.str "request_uri"),
           ("operator", JsValue.str "is_equal"),
           ("conditional", JsValue.str "and"),
           ("argument", JsValue.str "/x")]]]),
       ("order", JsValue.num 1)]) = true := by
  rfl

/-- C8 amended: within every criterion group each conditional must be
one of if, and, or; validation checks each criterion independently of
its position in the group (group validity is exactly the conjunction of
elementwise criterion validity) and imposes no first-must-be-if
constraint, so a group starting with "and" or "or" is accepted whenever
its criteria are individually valid. -/
theorem waf_conditional_membership_only :
    (∀ cs : List JsValue, criterionGroupValidLegacy (.arr cs) = cs.all criterionValidLegacy)
    ∧ (∀ vvar vop vcond varg : String,
        criterionValidLegacy (.obj
          [("variable", JsValue.str vvar), ("operator", JsValue.str vop),
           ("conditional", JsValue.str vcond), ("argument", JsValue.str varg)])
        = (legacyVariables.contains vvar && legacyOperators.contains vop
           && conditionalValues.contains vcond)) := by
  constructor
  · intro cs
    rfl
  · intro vvar vop vcond varg
    simp [criterionValidLegacy, jsGet, isEnumOf, isStr]

/-- C9: evaluation of both CriterionSchema variants at a criterion with
an existence operator and no argument field: validation rejects it,
because the schema declares argument as a required string even though
its own description text calls the field optional for the existence
operators; the same criterion with an argument present is accepted. -/
theorem criterion_existence_argument_required :
    criterionValidLegacy (.obj
      [("variable", JsValue.str "host"), ("operator", JsValue.str "exists"),
       ("conditional", JsValue.str "if")]) = false
    ∧ criterionValidCurrent (.obj
      [("variable", JsValue.str "host"), ("operator", JsValue.str "exists"),
       ("conditional", JsValue.str "if")]) = false
    ∧ criterionValidLegacy (.obj
      [("variable", JsValue.str "host"), ("operator", JsValue.str "exists"),
       ("conditional", JsValue.str "if"), ("argument", JsValue.str "")]) = true := by
  refine ⟨rfl, rfl, rfl⟩

/-- C10: a patch invocation providing only domain_id issues exactly one
PATCH request to /domains/(domain_id) with the empty JSON object as
body, for every outcome of that request: the tool does not short-circuit
on an empty update. -/
theorem patch_empty_update_still_requests (token : String) (d : Int)
    (outcome : HttpOutcome) :
    (patchDomainExecute token
      { domain_id := d, name := none, cnames := none, cname_access_only := none,
        digital_certificate_id := none, edge_application_id := none,
        edge_firewall_id := none, is_active := none, is_mtls_enabled := none,
        mtls_verification := none, mtls_trusted_ca_certificate_id := none,
        crl_list := none } outcome).1
    = [{ method := "PATCH",
         url := "https://api.azionapi.net/domains/" ++ toString d,
         headers := azionHeaders token,
         body := JsValue.obj [] }] := by
  rfl

end AzionMcp
